import Mathlib

/-!
Shallow embedding of `src/backend/routers/announcements.py`: CRUD endpoints
for announcements in a school management system, backed by a document store
and gated by a teacher-existence lookup.

Modelling conventions:
* A stored document is an association list `Doc` of string keys and JSON-ish
  values (`JVal.null` for Python `None`, `JVal.str` for strings); `Doc.get`
  is Python's `dict.get` (first binding wins), `Doc.set` replaces the first
  binding in place or appends, like assignment into a `dict`.
* `datetime.strptime(s, "%Y-%m-%d")` becomes `parseDate`, following
  CPython's `_strptime` regex exactly: year of exactly 4 digits, month of
  1-2 digits in 1..12, day of 1-2 digits in 1..31 or a space-padded
  single digit, then the `datetime` constructor's range checks (year ≥ 1,
  day valid for the month with Gregorian leap years).  Python's `\d`
  also matches non-ASCII Unicode decimal digits; that case is out of
  scope, disclosed by `asciiOnly` hypotheses on the theorems that need
  parse-failure fidelity.  `strptime` on a non-string raises `TypeError`;
  `strptimeVal` returns `none` there, which the listing code treats the
  same as a parse failure (both are caught).
* Python truthiness on optional strings (`if announcement.start_date:`)
  is `truthyStr` / `truthyVal`: `None`, absent keys and `""` are falsy.
* `HTTPException` becomes the `ApiError` inductive; `ApiError.statusCode`
  records the HTTP status used by the source.
* The document store (`..database`, not part of the router file) is
  modelled as a list of documents in insertion order.  `insert_one`
  appends; `find_one {_id: x}` returns the first match; `update_one`
  applies a `$set` to the first match and, following MongoDB semantics,
  reports zero modified documents when the `$set` is a no-op;
  `delete_one` removes the first match and reports the deletion count.
* Mutating endpoints return the store after the call alongside the
  response, so "no state change" is expressible.
* `datetime.now(timezone.utc)` is passed in as an explicit parameter:
  a `Date` for the active-listing filter, an ISO string for `created_at`.
  The store-assigned id is likewise a parameter `new_id`.
-/

/-- Gregorian leap-year test, as `datetime` uses. -/
def isLeapYear (y : Nat) : Bool :=
  y % 4 == 0 && (y % 100 != 0 || y % 400 == 0)

/-- Days in a month of a given year, as `datetime` validates. -/
def daysInMonth (y m : Nat) : Nat :=
  if m = 2 then (if isLeapYear y then 29 else 28)
  else if m = 4 ∨ m = 6 ∨ m = 9 ∨ m = 11 then 30
  else 31

/-- Numeric value of a digit string, most significant digit first. -/
def digitsVal (cs : List Char) : Nat :=
  cs.foldl (fun n c => n * 10 + (c.toNat - 48)) 0

/-- Split a character list on `'-'`, like `str.split` at each separator. -/
def splitOnDash (cs : List Char) : List (List Char) :=
  match cs with
  | [] => [[]]
  | c :: rest =>
    if c = '-' then [] :: splitOnDash rest
    else
      match splitOnDash rest with
      | f :: others => (c :: f) :: others
      | [] => [[c]]

/-- The `%Y` field of `strptime`: CPython's `_strptime` compiles `%Y` to
the regex `\d\d\d\d` — exactly four digits. -/
def parseYear (cs : List Char) : Option Nat :=
  if cs.length = 4 ∧ cs.all (·.isDigit) = true then
    some (digitsVal cs)
  else
    none

/-- The `%m` field of `strptime`: the regex `1[0-2]|0[1-9]|[1-9]`, that
is, one digit 1-9 or two digits with value 1..12. -/
def parseMonth (cs : List Char) : Option Nat :=
  if (cs.length = 1 ∨ cs.length = 2) ∧ cs.all (·.isDigit) = true ∧
      1 ≤ digitsVal cs ∧ digitsVal cs ≤ 12 then
    some (digitsVal cs)
  else
    none

/-- The `%d` field of `strptime`: the regex
`3[0-1]|[1-2]\d|0[1-9]|[1-9]| [1-9]`, that is, one digit 1-9, two digits
with value 1..31, or a space followed by one digit 1-9 (space-padded
day). -/
def parseDay (cs : List Char) : Option Nat :=
  match cs with
  | [' ', c] => if c.isDigit = true ∧ ¬ c = '0' then some (digitsVal [c]) else none
  | _ =>
    if (cs.length = 1 ∨ cs.length = 2) ∧ cs.all (·.isDigit) = true ∧
        1 ≤ digitsVal cs ∧ digitsVal cs ≤ 31 then
      some (digitsVal cs)
    else
      none

/-- A calendar date as produced by `datetime.strptime(s, "%Y-%m-%d").date()`. -/
structure Date where
  year : Nat
  month : Nat
  day : Nat
deriving DecidableEq, Repr

/-- Order-embedding of dates into `Nat`: dates (and the midnight datetimes
`strptime` returns) compare lexicographically by (year, month, day), which
agrees with comparing `key` since month ≤ 12 and day ≤ 31. -/
def Date.key (d : Date) : Nat :=
  d.year * 10000 + d.month * 100 + d.day

/-- `datetime.strptime(s, "%Y-%m-%d")`: the anchored regex
`(\d\d\d\d)-(1[0-2]|0[1-9]|[1-9])-(3[0-1]|[1-2]\d|0[1-9]|[1-9]| [1-9])`
must consume the whole string (any remainder raises `ValueError`), then
the `datetime` constructor validates 1 ≤ year ≤ 9999, 1 ≤ month ≤ 12 and
1 ≤ day ≤ days-in-month; every failure raises `ValueError`, modelled as
`none`.  Since no field of the regex can contain `-`, a successful match
splits the string at its dashes into exactly three components, which is
how this definition reads it.  One disclosed scope restriction: Python's
`\d` (and `int`) also accept non-ASCII Unicode decimal digits, which
this model rejects; the date-validation theorems therefore carry an
explicit `asciiOnly` hypothesis on the strings involved. -/
def parseDate (s : String) : Option Date :=
  match splitOnDash s.data with
  | [ys, ms, ds] =>
    match parseYear ys, parseMonth ms, parseDay ds with
    | some y, some m, some d =>
      if 1 ≤ y ∧ y ≤ 9999 ∧ 1 ≤ m ∧ m ≤ 12 ∧ 1 ≤ d ∧ d ≤ daysInMonth y m then
        some ⟨y, m, d⟩
      else
        none
    | _, _, _ => none
  | _ => none

/-- All characters ASCII: the scope on which `parseDate` models
`strptime` exactly (Python's `\d` also matches non-ASCII Unicode decimal
digits, out of scope here). -/
def asciiOnly (s : String) : Bool :=
  s.data.all (fun c => decide (c.toNat < 128))

/-- A JSON-ish stored value: Python `None` or a string.  The router only
ever stores strings or `None` in the fields it touches. -/
inductive JVal where
  | null
  | str (s : String)
deriving DecidableEq, Repr

/-- A stored document: association list in key-insertion order. -/
abbrev Doc := List (String × JVal)

/-- `dict.get k` / `dict[k]`: value of the first binding of `k`, if any. -/
def Doc.get (d : Doc) (k : String) : Option JVal :=
  match d with
  | [] => none
  | (k', v) :: rest => if k' = k then some v else Doc.get rest k

/-- `dict[k] = v`: replace the first binding of `k` keeping its position,
or append a new binding. -/
def Doc.set (d : Doc) (k : String) (v : JVal) : Doc :=
  match d with
  | [] => [(k, v)]
  | (k', v') :: rest =>
    if k' = k then (k, v) :: rest else (k', v') :: Doc.set rest k v

/-- Python truthiness of an `Optional[str]`: `None` and `""` are falsy. -/
def truthyStr : Option String → Bool
  | none => false
  | some s => s != ""

/-- Python truthiness of a value read from a document with `.get`:
absent keys, `None` and `""` are falsy. -/
def truthyVal : Option JVal → Bool
  | some (.str s) => s != ""
  | _ => false

/-- `strptime` applied to a value read from a document: a non-string
(absent key or `None`) raises `TypeError`, a bad string `ValueError`;
both are `none` here (the listing code catches both). -/
def strptimeVal (v : Option JVal) : Option Date :=
  match v with
  | some (.str s) => parseDate s
  | _ => none

/-- Scope marker lifted to stored values: the value, when a string, has
only ASCII characters (see `asciiOnly`); non-strings impose nothing. -/
def asciiVal : Option JVal → Bool
  | some (.str s) => asciiOnly s
  | _ => true

/-- The announcements collection: documents in insertion order. -/
abbrev Store := List Doc

/-- `find_one({"_id": id})`: first document whose `_id` equals `id`. -/
def findOne (store : Store) (id : String) : Option Doc :=
  match store with
  | [] => none
  | d :: rest => if d.get "_id" = some (.str id) then some d else findOne rest id

/-- `$set` of an update document applied to one stored document. -/
def applySet (upd : List (String × JVal)) (d : Doc) : Doc :=
  upd.foldl (fun acc p => acc.set p.1 p.2) d

/-- `update_one({"_id": id}, {"$set": upd})`: apply the `$set` to the first
matching document; the reported `modified_count` is zero when no document
matched or the `$set` left the document unchanged (MongoDB counts only
documents actually modified). -/
def updateOne (store : Store) (id : String) (upd : List (String × JVal)) :
    Store × Nat :=
  match store with
  | [] => ([], 0)
  | d :: rest =>
    if d.get "_id" = some (.str id) then
      ((applySet upd d) :: rest, if applySet upd d = d then 0 else 1)
    else
      let r := updateOne rest id upd
      (d :: r.1, r.2)

/-- `delete_one({"_id": id})`: remove the first matching document and
report the `deleted_count`. -/
def deleteOne (store : Store) (id : String) : Store × Nat :=
  match store with
  | [] => ([], 0)
  | d :: rest =>
    if d.get "_id" = some (.str id) then
      (rest, 1)
    else
      let r := deleteOne rest id
      (d :: r.1, r.2)

/-- `HTTPException` kinds raised by the router. -/
inductive ApiError where
  | unauthenticated
  | invalidInput (detail : String)
  | notFound
  | internalError
deriving DecidableEq, Repr

/-- HTTP status code of each error, as in the source. -/
def ApiError.statusCode : ApiError → Nat
  | .unauthenticated => 401
  | .invalidInput _ => 400
  | .notFound => 404
  | .internalError => 500

/-- Detail string of the date-format `HTTPException`. -/
def invalidDateFormatDetail : String :=
  "Invalid date format. Use ISO format (YYYY-MM-DD)"

/-- Detail string of the date-ordering `HTTPException`. -/
def startBeforeExpirationDetail : String :=
  "Start date must be before expiration date"

/-- Request body of `POST /announcements` (`AnnouncementCreate`). -/
structure AnnouncementCreate where
  title : String
  message : String
  start_date : Option String
  expiration_date : String
deriving DecidableEq, Repr

/-- Request body of `PUT /announcements/{id}` (`AnnouncementUpdate`). -/
structure AnnouncementUpdate where
  title : Option String
  message : Option String
  start_date : Option String
  expiration_date : Option String
deriving DecidableEq, Repr

/-- The teachers collection, used only for an existence lookup by `_id`. -/
abbrev Teachers := List String

/-- Sort key of a document: `x.get("created_at", "")`, with a non-string
value (which create/update never produce) read as `""`. -/
def createdAtKey (d : Doc) : String :=
  match d.get "created_at" with
  | some (.str s) => s
  | _ => ""

/-- `announcements.sort(key=lambda x: x.get("created_at", ""), reverse=True)`:
stable descending sort by `createdAtKey` (Python's `list.sort` is stable,
as is `List.mergeSort`). -/
def sortByCreatedAtDesc (l : List Doc) : List Doc :=
  l.mergeSort (fun a b => decide (createdAtKey b ≤ createdAtKey a))

/-- Body of the `for` loop of `get_announcements`: keep a record unless a
`continue` fires (expiration missing/unparsable/expired, or a truthy
`start_date` that is unparsable or in the future). -/
def keepActive (now : Date) (a : Doc) : Bool :=
  match strptimeVal (a.get "expiration_date") with
  | none => false
  | some exp_date =>
    if exp_date.key < now.key then false
    else if truthyVal (a.get "start_date") then
      match strptimeVal (a.get "start_date") with
      | none => false
      | some sd => decide (sd.key ≤ now.key)
    else true

/-- `GET /announcements`: all active announcements, newest first. -/
def get_announcements (store : Store) (now : Date) : List Doc :=
  sortByCreatedAtDesc (store.filter (keepActive now))

/-- `GET /announcements/all`: every announcement, newest first; requires a
matching teacher record. -/
def get_all_announcements (teachers : Teachers) (store : Store)
    (teacher_username : String) : Except ApiError (List Doc) :=
  if teachers.contains teacher_username then
    .ok (sortByCreatedAtDesc store)
  else
    .error .unauthenticated

/-- Date validation of `create_announcement`: `expiration_date` must parse;
if `start_date` is truthy it must parse and be strictly before
`expiration_date`.  The ordering `HTTPException` is raised inside the
`try`, but it is not a `ValueError`, so it propagates. -/
def validateCreateDates (a : AnnouncementCreate) : Except ApiError Unit :=
  match parseDate a.expiration_date with
  | none => .error (.invalidInput invalidDateFormatDetail)
  | some exp_date =>
    if truthyStr a.start_date then
      match parseDate (a.start_date.getD "") with
      | none => .error (.invalidInput invalidDateFormatDetail)
      | some start_date =>
        if exp_date.key ≤ start_date.key then
          .error (.invalidInput startBeforeExpirationDetail)
        else
          .ok ()
    else
      .ok ()

/-- The `start_date` value stored by `create_announcement`: the request's
optional string, `None` when absent (the key itself is always written). -/
def optJVal : Option String → JVal
  | none => .null
  | some s => .str s

/-- `POST /announcements`: authenticate, validate dates, insert the new
document and return it with the store-assigned id appended. -/
def create_announcement (teachers : Teachers) (store : Store)
    (a : AnnouncementCreate) (teacher_username : String)
    (now_iso : String) (new_id : String) :
    Except ApiError Doc × Store :=
  if teachers.contains teacher_username then
    match validateCreateDates a with
    | .error e => (.error e, store)
    | .ok () =>
      let announcement_doc : Doc :=
        [("title", .str a.title),
         ("message", .str a.message),
         ("start_date", optJVal a.start_date),
         ("expiration_date", .str a.expiration_date),
         ("created_by", .str teacher_username),
         ("created_at", .str now_iso)]
      let stored := announcement_doc ++ [("_id", .str new_id)]
      (.ok stored, store ++ [stored])
  else
    (.error .unauthenticated, store)

/-- Python `a or b` where `a` is the supplied optional string and `b` the
stored value: the supplied string when truthy, else the stored value read
back as an optional string (`None`/absent to `none`, a stored string —
even `""` — to `some`). -/
def pyOrStored (supplied : Option String) (stored : Option JVal) :
    Option String :=
  if truthyStr supplied then supplied
  else
    match stored with
    | some (.str s) => some s
    | _ => none

/-- Date validation of `update_announcement`: runs only when a supplied
date string is truthy; resolves each field to the supplied-if-truthy value
else the stored one, and only when both resolved values are truthy parses
them and requires start strictly before expiration. -/
def validateUpdateDates (u : AnnouncementUpdate) (announcement_doc : Doc) :
    Except ApiError Unit :=
  if truthyStr u.expiration_date || truthyStr u.start_date then
    if truthyStr (pyOrStored u.expiration_date
          (announcement_doc.get "expiration_date")) &&
        truthyStr (pyOrStored u.start_date
          (announcement_doc.get "start_date")) then
      match parseDate ((pyOrStored u.expiration_date
          (announcement_doc.get "expiration_date")).getD "") with
      | none => .error (.invalidInput invalidDateFormatDetail)
      | some exp_date =>
        match parseDate ((pyOrStored u.start_date
            (announcement_doc.get "start_date")).getD "") with
        | none => .error (.invalidInput invalidDateFormatDetail)
        | some start_date =>
          if exp_date.key ≤ start_date.key then
            .error (.invalidInput startBeforeExpirationDetail)
          else
            .ok ()
    else
      .ok ()
  else
    .ok ()

/-- The update document of `update_announcement`: every field that is not
`None` — including empty strings — in body order. -/
def buildUpdateDoc (u : AnnouncementUpdate) : List (String × JVal) :=
  (match u.title with | some t => [("title", JVal.str t)] | none => []) ++
  (match u.message with | some m => [("message", JVal.str m)] | none => []) ++
  (match u.start_date with | some s => [("start_date", JVal.str s)] | none => []) ++
  (match u.expiration_date with | some e => [("expiration_date", JVal.str e)] | none => [])

/-- `PUT /announcements/{id}`: authenticate, find the record, validate the
resolved dates, apply the non-`None` fields via `$set` (failing with 500
when the store reports zero modified), and return the record re-read from
the store (`None` if it vanished). -/
def update_announcement (teachers : Teachers) (store : Store)
    (announcement_id : String) (u : AnnouncementUpdate)
    (teacher_username : String) :
    Except ApiError (Option Doc) × Store :=
  if teachers.contains teacher_username then
    match findOne store announcement_id with
    | none => (.error .notFound, store)
    | some announcement_doc =>
      match validateUpdateDates u announcement_doc with
      | .error e => (.error e, store)
      | .ok () =>
        if buildUpdateDoc u = [] then
          (.ok (findOne store announcement_id), store)
        else
          if (updateOne store announcement_id (buildUpdateDoc u)).2 = 0 then
            (.error .internalError,
             (updateOne store announcement_id (buildUpdateDoc u)).1)
          else
            (.ok (findOne (updateOne store announcement_id (buildUpdateDoc u)).1
                announcement_id),
             (updateOne store announcement_id (buildUpdateDoc u)).1)
  else
    (.error .unauthenticated, store)

/-- `DELETE /announcements/{id}`: authenticate, delete the first matching
record, 404 when nothing was deleted, else an acknowledgment document. -/
def delete_announcement (teachers : Teachers) (store : Store)
    (announcement_id : String) (teacher_username : String) :
    Except ApiError Doc × Store :=
  if teachers.contains teacher_username then
    if (deleteOne store announcement_id).2 = 0 then
      (.error .notFound, (deleteOne store announcement_id).1)
    else
      (.ok [("message", .str "Announcement deleted successfully")],
       (deleteOne store announcement_id).1)
  else
    (.error .unauthenticated, store)

/-- Decidable equality for `Except`, so concrete endpoint results can be
evaluated by `decide`. -/
instance {e a : Type} [DecidableEq e] [DecidableEq a] :
    DecidableEq (Except e a) := fun x y =>
  match x, y with
  | .error u, .error v =>
    if h : u = v then .isTrue (by rw [h])
    else .isFalse (by intro hh; injection hh; exact h (by assumption))
  | .error _, .ok _ => .isFalse (by intro hh; exact Except.noConfusion hh)
  | .ok _, .error _ => .isFalse (by intro hh; exact Except.noConfusion hh)
  | .ok u, .ok v =>
    if h : u = v then .isTrue (by rw [h])
    else .isFalse (by intro hh; injection hh; exact h (by assumption))

/-! ### Concrete sample data used by witnesses and counterexamples -/

/-- A stored announcement whose `start_date` is the empty string. -/
def emptyStartDoc : Doc :=
  [("_id", JVal.str "a1"), ("title", JVal.str "Opening"),
   ("message", JVal.str "Welcome"), ("start_date", JVal.str ""),
   ("expiration_date", JVal.str "2025-12-31"),
   ("created_at", JVal.str "2025-01-01T00:00:00+00:00")]

/-- A fixed "today" used by the concrete examples: 2025-02-01 (UTC). -/
def sampleToday : Date := ⟨2025, 2, 1⟩

/-- A stored announcement with well-formed dates. -/
def datedDoc : Doc :=
  [("_id", JVal.str "b1"), ("title", JVal.str "Exam"),
   ("message", JVal.str "Midterm"), ("start_date", JVal.str "2025-01-01"),
   ("expiration_date", JVal.str "2025-02-01"),
   ("created_at", JVal.str "2025-01-01T00:00:00+00:00")]

/-- A create request whose `start_date` is the empty string. -/
def emptyStartCreate : AnnouncementCreate :=
  ⟨"Trip", "Bus leaves early", some "", "2025-12-31"⟩

/-- The document produced by a successful create of `emptyStartCreate`. -/
def createdTripDoc : Doc :=
  [("title", JVal.str "Trip"), ("message", JVal.str "Bus leaves early"),
   ("start_date", JVal.str ""), ("expiration_date", JVal.str "2025-12-31"),
   ("created_by", JVal.str "t1"),
   ("created_at", JVal.str "2025-06-01T00:00:00+00:00"),
   ("_id", JVal.str "n1")]

/-- A well-formed create request. -/
def examCreate : AnnouncementCreate :=
  ⟨"Exam", "Midterm", some "2025-01-01", "2025-01-10"⟩

/-- The document produced by a successful create of `examCreate`. -/
def examCreatedDoc : Doc :=
  [("title", JVal.str "Exam"), ("message", JVal.str "Midterm"),
   ("start_date", JVal.str "2025-01-01"),
   ("expiration_date", JVal.str "2025-01-10"),
   ("created_by", JVal.str "t1"),
   ("created_at", JVal.str "2025-01-01T09:00:00+00:00"),
   ("_id", JVal.str "n7")]

/-- A create request with `start_date` after `expiration_date`. -/
def reversedCreate : AnnouncementCreate :=
  ⟨"Exam", "Midterm", some "2025-01-10", "2025-01-01"⟩

/-- An update supplying only a `start_date` that violates ordering against
the stored `expiration_date`. -/
def lateStartUpdate : AnnouncementUpdate :=
  ⟨none, none, some "2026-01-01", none⟩

/-- The comparison used by `sortByCreatedAtDesc`, as a `Bool`. -/
def createdAtDescBool (a b : Doc) : Bool :=
  decide (createdAtKey b ≤ createdAtKey a)

/-! ### Helper lemmas about documents and the store -/

/-- Setting a key makes `get` of that key return the new value. -/
theorem Doc.get_set_self (d : Doc) (k : String) (v : JVal) :
    (d.set k v).get k = some v := by
  induction d with
  | nil => simp [Doc.set, Doc.get]
  | cons p rest ih =>
    obtain ⟨k', v'⟩ := p
    by_cases h : k' = k
    · simp [Doc.set, Doc.get, h]
    · simp [Doc.set, Doc.get, h, ih]

/-- Setting a key leaves `get` of any other key unchanged. -/
theorem Doc.get_set_ne (d : Doc) (k k' : String) (v : JVal) (h : ¬ k' = k) :
    (d.set k v).get k' = d.get k' := by
  induction d with
  | nil =>
    have hne : ¬ k = k' := fun hh => h hh.symm
    simp [Doc.set, Doc.get, hne]
  | cons p rest ih =>
    obtain ⟨k'', v''⟩ := p
    by_cases hk : k'' = k
    · subst hk
      have hne : ¬ k'' = k' := fun hh => h hh.symm
      simp [Doc.set, Doc.get, hne]
    · simp [Doc.set, Doc.get, hk, ih]

/-- If `get` does not already return the value being set, the document
changes. -/
theorem Doc.set_ne_of_get_ne (d : Doc) (k : String) (v : JVal)
    (h : ¬ d.get k = some v) : ¬ d.set k v = d := by
  intro he
  exact h (he ▸ Doc.get_set_self d k v)

/-- `applySet` leaves keys outside the update document unchanged. -/
theorem applySet_get_of_not_mem (upd : List (String × JVal)) (d : Doc)
    (k : String) (h : ∀ p ∈ upd, ¬ p.1 = k) :
    (applySet upd d).get k = d.get k := by
  induction upd generalizing d with
  | nil => rfl
  | cons p rest ih =>
    have hstep : applySet (p :: rest) d = applySet rest (d.set p.1 p.2) := rfl
    rw [hstep, ih (d.set p.1 p.2) (fun q hq => h q (by simp [hq])),
      Doc.get_set_ne _ _ _ _ (fun hh : k = p.1 => h p (by simp) hh.symm)]

/-- A document returned by `findOne` carries the looked-up `_id`. -/
theorem findOne_get_id (store : Store) (id : String) (doc : Doc)
    (h : findOne store id = some doc) : doc.get "_id" = some (.str id) := by
  induction store with
  | nil => simp [findOne] at h
  | cons d rest ih =>
    by_cases hd : d.get "_id" = some (.str id)
    · simp [findOne, hd] at h
      exact h ▸ hd
    · simp [findOne, hd] at h
      exact ih h

/-- `findOne` over a list whose prefix has no matching `_id` finds the
first match after the prefix. -/
theorem findOne_prepend (pre : Store) (x : Doc) (post : Store) (id : String)
    (hpre : ∀ d ∈ pre, ¬ d.get "_id" = some (.str id))
    (hx : x.get "_id" = some (.str id)) :
    findOne (pre ++ x :: post) id = some x := by
  induction pre with
  | nil => simp [findOne, hx]
  | cons d rest ih =>
    have hd := hpre d (by simp)
    simp only [List.cons_append, findOne, hd, if_neg hd]
    exact ih (fun d' hd' => hpre d' (by simp [hd']))

/-- Anatomy of a found-and-updated store: `findOne` success splits the
store, and `updateOne` rewrites exactly the found document, reporting
zero modified iff the `$set` was a no-op on it. -/
theorem updateOne_found (store : Store) (id : String)
    (upd : List (String × JVal)) (doc : Doc)
    (hfind : findOne store id = some doc) :
    ∃ pre post,
      store = pre ++ doc :: post ∧
      (∀ d ∈ pre, ¬ d.get "_id" = some (.str id)) ∧
      (updateOne store id upd).1 = pre ++ applySet upd doc :: post ∧
      (updateOne store id upd).2 = (if applySet upd doc = doc then 0 else 1) := by
  induction store with
  | nil => simp [findOne] at hfind
  | cons d rest ih =>
    by_cases hd : d.get "_id" = some (.str id)
    · simp [findOne, hd] at hfind
      subst hfind
      refine ⟨[], rest, by simp, by simp, ?_, ?_⟩
      · simp [updateOne, hd]
      · simp [updateOne, hd]
    · simp [findOne, hd] at hfind
      obtain ⟨pre, post, h1, h2, h3, h4⟩ := ih hfind
      refine ⟨d :: pre, post, by simp [h1], ?_, ?_, ?_⟩
      · intro d' hd'
        rcases List.mem_cons.mp hd' with h | h
        · exact h ▸ hd
        · exact h2 d' h
      · simp [updateOne, hd, h3]
      · simp [updateOne, hd, h4]

/-! ### Sorting lemmas -/

/-- The result of `sortByCreatedAtDesc` is sorted by `createdAtKey`
descending. -/
theorem sortByCreatedAtDesc_pairwise (l : List Doc) :
    (sortByCreatedAtDesc l).Pairwise
      (fun a b => createdAtKey b ≤ createdAtKey a) := by
  have htrans : ∀ a b c : Doc, createdAtDescBool a b = true →
      createdAtDescBool b c = true → createdAtDescBool a c = true := by
    intro a b c hab hbc
    simp only [createdAtDescBool, decide_eq_true_eq] at hab hbc ⊢
    exact le_trans hbc hab
  have htotal : ∀ a b : Doc,
      (createdAtDescBool a b || createdAtDescBool b a) = true := by
    intro a b
    simp only [createdAtDescBool, Bool.or_eq_true, decide_eq_true_eq]
    exact (le_total (createdAtKey b) (createdAtKey a))
  have h := List.sorted_mergeSort htrans htotal l
  have heq : sortByCreatedAtDesc l = l.mergeSort createdAtDescBool := rfl
  rw [heq]
  exact h.imp (fun hab => of_decide_eq_true hab)

/-- Everything after an element in a `createdAtKey`-descending list has a
key no larger than that element's. -/
theorem pairwise_key_after {l l1 l2 : List Doc} {b : Doc}
    (hp : l.Pairwise (fun a c => createdAtKey c ≤ createdAtKey a))
    (hl : l = l1 ++ b :: l2) :
    ∀ d ∈ l2, createdAtKey d ≤ createdAtKey b := by
  subst hl
  have h2 := (List.pairwise_append.mp hp).2.1
  exact (List.pairwise_cons.mp h2).1

/-! ### Characterization of the active filter -/

/-- `keepActive` holds exactly when the stored `expiration_date` is a
string parsing to a date on or after `now`, and the stored `start_date`,
whenever it is a non-empty string, parses to a date on or before `now`. -/
theorem keepActive_iff (now : Date) (d : Doc) :
    keepActive now d = true ↔
      ((∃ es e, d.get "expiration_date" = some (JVal.str es) ∧
          parseDate es = some e ∧ now.key ≤ e.key) ∧
       (∀ ss, d.get "start_date" = some (JVal.str ss) → ¬ ss = "" →
          ∃ s, parseDate ss = some s ∧ s.key ≤ now.key)) := by
  rcases hexp : d.get "expiration_date" with _ | (_ | es)
  · rw [show keepActive now d = false by simp [keepActive, strptimeVal, hexp]]
    simp only [Bool.false_eq_true, false_iff]
    rintro ⟨⟨es, e, hes, -, -⟩, -⟩
    exact Option.noConfusion hes
  · rw [show keepActive now d = false by simp [keepActive, strptimeVal, hexp]]
    simp only [Bool.false_eq_true, false_iff]
    rintro ⟨⟨es, e, hes, -, -⟩, -⟩
    rw [Option.some_inj] at hes
    exact JVal.noConfusion hes
  · rcases hpe : parseDate es with _ | e
    · rw [show keepActive now d = false by
        simp [keepActive, strptimeVal, hexp, hpe]]
      simp only [Bool.false_eq_true, false_iff]
      rintro ⟨⟨es', e, hes, hp, -⟩, -⟩
      simp only [Option.some_inj, JVal.str.injEq] at hes
      subst hes
      rw [hpe] at hp
      exact Option.noConfusion hp
    · by_cases hlt : e.key < now.key
      · rw [show keepActive now d = false by
          simp [keepActive, strptimeVal, hexp, hpe, hlt]]
        simp only [Bool.false_eq_true, false_iff]
        rintro ⟨⟨es', e', hes, hp, hle⟩, -⟩
        simp only [Option.some_inj, JVal.str.injEq] at hes
        subst hes
        rw [hpe, Option.some_inj] at hp
        subst hp
        omega
      · rcases hst : d.get "start_date" with _ | (_ | ss)
        · rw [show keepActive now d = true by
            simp [keepActive, strptimeVal, truthyVal, hexp, hpe, hlt, hst]]
          refine ⟨fun _ => ⟨⟨es, e, rfl, hpe, by omega⟩, ?_⟩, fun _ => rfl⟩
          intro ss' hss' _
          exact Option.noConfusion hss'
        · rw [show keepActive now d = true by
            simp [keepActive, strptimeVal, truthyVal, hexp, hpe, hlt, hst]]
          refine ⟨fun _ => ⟨⟨es, e, rfl, hpe, by omega⟩, ?_⟩, fun _ => rfl⟩
          intro ss' hss' _
          rw [Option.some_inj] at hss'
          exact JVal.noConfusion hss'
        · by_cases hss : ss = ""
          · subst hss
            rw [show keepActive now d = true by
              simp [keepActive, strptimeVal, truthyVal, hexp, hpe, hlt, hst]]
            refine ⟨fun _ => ⟨⟨es, e, rfl, hpe, by omega⟩, ?_⟩, fun _ => rfl⟩
            intro ss' hss' hne
            simp only [Option.some_inj, JVal.str.injEq] at hss'
            subst hss'
            exact absurd rfl hne
          · rcases hps : parseDate ss with _ | s
            · rw [show keepActive now d = false by
                simp [keepActive, strptimeVal, truthyVal, hexp, hpe, hlt, hst,
                  hss, hps]]
              simp only [Bool.false_eq_true, false_iff]
              rintro ⟨-, hB⟩
              obtain ⟨s, hp, -⟩ := hB ss rfl hss
              rw [hps] at hp
              exact Option.noConfusion hp
            · by_cases hsle : s.key ≤ now.key
              · rw [show keepActive now d = true by
                  simp [keepActive, strptimeVal, truthyVal, hexp, hpe, hlt,
                    hst, hss, hps, hsle]]
                refine ⟨fun _ => ⟨⟨es, e, rfl, hpe, by omega⟩, ?_⟩,
                  fun _ => rfl⟩
                intro ss' hss' _
                simp only [Option.some_inj, JVal.str.injEq] at hss'
                subst hss'
                exact ⟨s, hps, hsle⟩
              · rw [show keepActive now d = false by
                  simp [keepActive, strptimeVal, truthyVal, hexp, hpe, hlt,
                    hst, hss, hps, hsle]]
                simp only [Bool.false_eq_true, false_iff]
                rintro ⟨-, hB⟩
                obtain ⟨s', hp', hle'⟩ := hB ss rfl hss
                rw [hps, Option.some_inj] at hp'
                subst hp'
                omega

/-! ### Claims -/

/-- C4: for a requester username with no matching teacher record, create,
update, delete and list_all all fail with `Unauthenticated` (401) and the
announcement store is unchanged; the authentication check precedes any
read or write of announcements. -/
theorem c4_unknown_teacher_rejected (teachers : Teachers) (store : Store)
    (username : String) (a : AnnouncementCreate) (id : String)
    (u : AnnouncementUpdate) (now_iso new_id : String)
    (h : ¬ username ∈ teachers) :
    create_announcement teachers store a username now_iso new_id =
      (.error .unauthenticated, store) ∧
    update_announcement teachers store id u username =
      (.error .unauthenticated, store) ∧
    delete_announcement teachers store id username =
      (.error .unauthenticated, store) ∧
    get_all_announcements teachers store username = .error .unauthenticated := by
  refine ⟨?_, ?_, ?_, ?_⟩ <;>
    simp [create_announcement, update_announcement, delete_announcement,
      get_all_announcements, h]

/-- Witness for C4 at a concrete unknown username. -/
theorem c4_witness :
    (¬ "ghost" ∈ (["t1"] : Teachers)) ∧
    (create_announcement ["t1"] [datedDoc] examCreate "ghost" "now" "x" =
      (.error .unauthenticated, [datedDoc]) ∧
    update_announcement ["t1"] [datedDoc] "b1" lateStartUpdate "ghost" =
      (.error .unauthenticated, [datedDoc]) ∧
    delete_announcement ["t1"] [datedDoc] "b1" "ghost" =
      (.error .unauthenticated, [datedDoc]) ∧
    get_all_announcements ["t1"] [datedDoc] "ghost" = .error .unauthenticated) :=
  ⟨by decide,
   c4_unknown_teacher_rejected ["t1"] [datedDoc] "ghost" examCreate "b1"
     lateStartUpdate "now" "x" (by decide)⟩

/-- C7: an update by a known teacher on an existing record that supplies
no fields performs no write, is not an error, and returns the record as
stored. -/
theorem c7_empty_update_is_noop (teachers : Teachers) (store : Store)
    (id username : String) (doc : Doc)
    (hauth : username ∈ teachers)
    (hfind : findOne store id = some doc) :
    update_announcement teachers store id ⟨none, none, none, none⟩ username =
      (.ok (some doc), store) := by
  have hv : validateUpdateDates ⟨none, none, none, none⟩ doc = .ok () := rfl
  have hb : buildUpdateDoc ⟨none, none, none, none⟩ = ([] : List (String × JVal)) := rfl
  simp [update_announcement, hauth, hfind, hv, hb]

/-- Witness for C7 at a concrete store and record. -/
theorem c7_witness :
    "t1" ∈ (["t1"] : Teachers) ∧
    findOne [datedDoc] "b1" = some datedDoc ∧
    update_announcement ["t1"] [datedDoc] "b1" ⟨none, none, none, none⟩ "t1" =
      (.ok (some datedDoc), [datedDoc]) :=
  ⟨by decide, by decide,
   c7_empty_update_is_noop ["t1"] [datedDoc] "b1" "t1" datedDoc
     (by decide) (by decide)⟩

/-- C8: when update attempts a write (authenticated, record found,
validation passed, at least one field supplied), it fails with
`InternalError` exactly when the store reports zero modified documents. -/
theorem c8_internal_error_iff_zero_modified (teachers : Teachers)
    (store : Store) (id : String) (u : AnnouncementUpdate) (username : String)
    (doc : Doc)
    (hauth : username ∈ teachers)
    (hfind : findOne store id = some doc)
    (hvalid : validateUpdateDates u doc = .ok ())
    (hsupplied : ¬ buildUpdateDoc u = []) :
    ((update_announcement teachers store id u username).1 =
        .error .internalError ↔
      (updateOne store id (buildUpdateDoc u)).2 = 0) := by
  by_cases h : (updateOne store id (buildUpdateDoc u)).2 = 0
  · simp [update_announcement, hauth, hfind, hvalid, hsupplied, h]
  · simp [update_announcement, hauth, hfind, hvalid, hsupplied, h]

/-- Witness for C8: a no-op write (title set to its stored value) is
reported as zero modified and yields `InternalError`. -/
theorem c8_witness :
    "t1" ∈ (["t1"] : Teachers) ∧
    findOne [datedDoc] "b1" = some datedDoc ∧
    validateUpdateDates ⟨some "Exam", none, none, none⟩ datedDoc = .ok () ∧
    ¬ buildUpdateDoc ⟨some "Exam", none, none, none⟩ = [] ∧
    ((update_announcement ["t1"] [datedDoc] "b1" ⟨some "Exam", none, none, none⟩
        "t1").1 = .error .internalError ↔
      (updateOne [datedDoc] "b1"
        (buildUpdateDoc ⟨some "Exam", none, none, none⟩)).2 = 0) :=
  ⟨by decide, by decide, by decide, by decide,
   c8_internal_error_iff_zero_modified ["t1"] [datedDoc] "b1"
     ⟨some "Exam", none, none, none⟩ "t1" datedDoc
     (by decide) (by decide) (by decide) (by decide)⟩

/-- C5: both listings are sorted by `created_at` descending (lexicographic
string order), a record missing `created_at` gets the empty string as its
sort key, and everything after any element has a key no larger than that
element's.  The hypothesis excludes documents whose stored `created_at` is
`None`: for those CPython's `list.sort` would raise `TypeError` comparing
`None`, which the embedding does not model. -/
theorem c5_listings_sorted_by_created_at (teachers : Teachers)
    (store : Store) (username : String) (now : Date)
    (_hwt : ∀ d ∈ store, ¬ d.get "created_at" = some JVal.null) :
    (get_announcements store now).Pairwise
      (fun a b => createdAtKey b ≤ createdAtKey a) ∧
    (∀ l, get_all_announcements teachers store username = .ok l →
      l.Pairwise (fun a b => createdAtKey b ≤ createdAtKey a)) ∧
    (∀ d : Doc, d.get "created_at" = none → createdAtKey d = "") ∧
    (∀ l1 l2 (b : Doc), get_announcements store now = l1 ++ b :: l2 →
      ∀ d ∈ l2, createdAtKey d ≤ createdAtKey b) := by
  refine ⟨sortByCreatedAtDesc_pairwise _, ?_, ?_, ?_⟩
  · intro l hl
    unfold get_all_announcements at hl
    by_cases hc : username ∈ teachers
    · simp only [List.contains_iff_exists_mem_beq] at hl
      rw [if_pos ⟨username, hc, by simp⟩] at hl
      rw [Except.ok.injEq] at hl
      exact hl ▸ sortByCreatedAtDesc_pairwise store
    · rw [if_neg (by simpa using hc)] at hl
      exact Except.noConfusion hl
  · intro d hd
    simp [createdAtKey, hd]
  · intro l1 l2 b hl
    exact pairwise_key_after (sortByCreatedAtDesc_pairwise _) hl

/-- Witness for C5 at a concrete two-record store. -/
theorem c5_witness :
    (∀ d ∈ [datedDoc, emptyStartDoc], ¬ d.get "created_at" = some JVal.null) ∧
    (get_announcements [datedDoc, emptyStartDoc] sampleToday).Pairwise
      (fun a b => createdAtKey b ≤ createdAtKey a) :=
  ⟨by decide,
   (c5_listings_sorted_by_created_at ["t1"] [datedDoc, emptyStartDoc] "t1"
     sampleToday (by decide)).1⟩

/-- C1 counterexample: a record whose `start_date` is present but equal to
the empty string — hence unparsable as a date — is nevertheless included
by the active listing, because the code's truthiness test skips empty
strings; the claim requires it to be excluded. -/
theorem c1_counterexample :
    emptyStartDoc.get "start_date" = some (JVal.str "") ∧
    parseDate "" = none ∧
    emptyStartDoc ∈ get_announcements [emptyStartDoc] sampleToday := by
  refine ⟨rfl, rfl, ?_⟩
  unfold get_announcements sortByCreatedAtDesc
  rw [List.mem_mergeSort, List.mem_filter]
  exact ⟨by decide, by decide⟩

/-- C1 (amended): a stored record is in the active listing exactly when
its `expiration_date` is a string parsing as `YYYY-MM-DD` to a date on or
after today, and its `start_date`, whenever present as a non-empty
string, parses to a date on or before today; `start_date` values that are
absent, `None` or the empty string impose no constraint.  The embedding
is total, mirroring that the listing surfaces no error for malformed
stored fields.  Two disclosed scope hypotheses: stored `None`
`created_at` values are excluded, for which CPython's sort would raise
`TypeError`, and the record's date fields, when strings, are ASCII, the
scope on which `parseDate` models `strptime` exactly. -/
theorem c1_active_listing_membership (store : Store) (now : Date) (d : Doc)
    (_hwt : ∀ d' ∈ store, ¬ d'.get "created_at" = some JVal.null)
    (_hea : asciiVal (d.get "expiration_date") = true)
    (_hsa : asciiVal (d.get "start_date") = true) :
    d ∈ get_announcements store now ↔
      (d ∈ store ∧
       (∃ es e, d.get "expiration_date" = some (JVal.str es) ∧
          parseDate es = some e ∧ now.key ≤ e.key) ∧
       (∀ ss, d.get "start_date" = some (JVal.str ss) → ¬ ss = "" →
          ∃ s, parseDate ss = some s ∧ s.key ≤ now.key)) := by
  unfold get_announcements sortByCreatedAtDesc
  rw [List.mem_mergeSort, List.mem_filter, keepActive_iff]

/-- Witness for C1 at a concrete store and record. -/
theorem c1_witness :
    (∀ d' ∈ [datedDoc], ¬ d'.get "created_at" = some JVal.null) ∧
    asciiVal (datedDoc.get "expiration_date") = true ∧
    asciiVal (datedDoc.get "start_date") = true ∧
    datedDoc ∈ get_announcements [datedDoc] sampleToday :=
  ⟨by decide, by decide, by decide,
   (c1_active_listing_membership [datedDoc] sampleToday datedDoc
      (by decide) (by decide) (by decide)).mpr
     ⟨by decide,
      ⟨"2025-02-01", ⟨2025, 2, 1⟩, rfl, by decide, by decide⟩,
      fun ss hss hne => by
        rw [show datedDoc.get "start_date" = some (JVal.str "2025-01-01")
            from rfl, Option.some_inj, JVal.str.injEq] at hss
        subst hss
        exact ⟨⟨2025, 1, 1⟩, by decide, by decide⟩⟩⟩

/-- C2 counterexample: supplying `expiration_date` as the empty string on
a record whose stored `start_date` is present.  Under the claim the
resolved pair is ("", stored start), both present, and "" does not parse,
so the update must fail with `InvalidInput` and leave the record alone;
the code skips validation (empty string is falsy) and writes "". -/
theorem c2_counterexample :
    (⟨none, none, none, some ""⟩ : AnnouncementUpdate).expiration_date =
      some "" ∧
    parseDate "" = none ∧
    datedDoc.get "start_date" = some (JVal.str "2025-01-01") ∧
    update_announcement ["t1"] [datedDoc] "b1" ⟨none, none, none, some ""⟩
        "t1" =
      (.ok (some (datedDoc.set "expiration_date" (JVal.str ""))),
       [datedDoc.set "expiration_date" (JVal.str "")]) := by
  refine ⟨rfl, rfl, rfl, ?_⟩
  decide

/-- C2 (amended): when a date field is supplied as a truthy (non-empty)
string, the update resolves each field to the supplied-if-truthy value
else the stored one; if both resolved values are truthy strings and they
fail to parse as `YYYY-MM-DD` with start strictly before expiration, the
update fails with `InvalidInput` and the record is not modified.  Fields
supplied as empty strings do not trigger validation.  Disclosed scope
hypotheses: the two resolved strings are ASCII, the scope on which
`parseDate` models `strptime` exactly (Python's `\d` also matches
non-ASCII Unicode digits). -/
theorem c2_update_date_validation (teachers : Teachers) (store : Store)
    (id : String) (u : AnnouncementUpdate) (username : String) (doc : Doc)
    (hauth : username ∈ teachers)
    (hfind : findOne store id = some doc)
    (_hea : asciiOnly ((pyOrStored u.expiration_date
      (doc.get "expiration_date")).getD "") = true)
    (_hsa : asciiOnly ((pyOrStored u.start_date
      (doc.get "start_date")).getD "") = true)
    (htrig : truthyStr u.expiration_date = true ∨
      truthyStr u.start_date = true)
    (hexp : truthyStr
      (pyOrStored u.expiration_date (doc.get "expiration_date")) = true)
    (hstart : truthyStr
      (pyOrStored u.start_date (doc.get "start_date")) = true)
    (hbad : ¬ ∃ e s,
      parseDate ((pyOrStored u.expiration_date
        (doc.get "expiration_date")).getD "") = some e ∧
      parseDate ((pyOrStored u.start_date
        (doc.get "start_date")).getD "") = some s ∧
      s.key < e.key) :
    ∃ m, update_announcement teachers store id u username =
      (.error (.invalidInput m), store) := by
  have hv : ∃ m, validateUpdateDates u doc = .error (.invalidInput m) := by
    unfold validateUpdateDates
    rw [if_pos (show (truthyStr u.expiration_date ||
          truthyStr u.start_date) = true by
        rcases htrig with h | h <;> simp [h]),
      if_pos (show (truthyStr (pyOrStored u.expiration_date
            (doc.get "expiration_date")) &&
          truthyStr (pyOrStored u.start_date
            (doc.get "start_date"))) = true by
        simp [hexp, hstart])]
    rcases hpe : parseDate ((pyOrStored u.expiration_date
        (doc.get "expiration_date")).getD "") with _ | e
    · exact ⟨invalidDateFormatDetail, rfl⟩
    · rcases hps : parseDate ((pyOrStored u.start_date
          (doc.get "start_date")).getD "") with _ | s
      · exact ⟨invalidDateFormatDetail, rfl⟩
      · by_cases hle : e.key ≤ s.key
        · exact ⟨startBeforeExpirationDetail, by simp [hle]⟩
        · exact absurd ⟨e, s, hpe, hps, by omega⟩ hbad
  obtain ⟨m, hm⟩ := hv
  exact ⟨m, by simp [update_announcement, hauth, hfind, hm]⟩

/-- Witness for C2: supplying only a `start_date` later than the stored
`expiration_date` is rejected with `InvalidInput`, store untouched. -/
theorem c2_witness :
    "t1" ∈ (["t1"] : Teachers) ∧
    findOne [datedDoc] "b1" = some datedDoc ∧
    asciiOnly ((pyOrStored lateStartUpdate.expiration_date
      (datedDoc.get "expiration_date")).getD "") = true ∧
    asciiOnly ((pyOrStored lateStartUpdate.start_date
      (datedDoc.get "start_date")).getD "") = true ∧
    truthyStr lateStartUpdate.start_date = true ∧
    truthyStr (pyOrStored lateStartUpdate.expiration_date
      (datedDoc.get "expiration_date")) = true ∧
    truthyStr (pyOrStored lateStartUpdate.start_date
      (datedDoc.get "start_date")) = true ∧
    (∃ m, update_announcement ["t1"] [datedDoc] "b1" lateStartUpdate "t1" =
      (.error (.invalidInput m), [datedDoc])) :=
  ⟨by decide, by decide, by decide, by decide, by decide, by decide, by decide,
   c2_update_date_validation ["t1"] [datedDoc] "b1" lateStartUpdate "t1"
     datedDoc (by decide) (by decide) (by decide) (by decide)
     (Or.inr (by decide)) (by decide) (by decide)
     (by
       rintro ⟨e, s, he, hs, hlt⟩
       rw [show parseDate ((pyOrStored lateStartUpdate.expiration_date
           (datedDoc.get "expiration_date")).getD "") =
           some ⟨2025, 2, 1⟩ from by decide, Option.some_inj] at he
       rw [show parseDate ((pyOrStored lateStartUpdate.start_date
           (datedDoc.get "start_date")).getD "") =
           some ⟨2026, 1, 1⟩ from by decide, Option.some_inj] at hs
       subst he
       subst hs
       exact absurd hlt (by decide))⟩

/-- C3 counterexample: a create whose `start_date` is supplied as the
empty string — which fails to parse — nevertheless succeeds and inserts a
record, because the truthiness test skips empty strings; the claim
requires `InvalidInput` and no insert. -/
theorem c3_counterexample :
    emptyStartCreate.start_date = some "" ∧
    parseDate "" = none ∧
    create_announcement ["t1"] [] emptyStartCreate "t1"
        "2025-06-01T00:00:00+00:00" "n1" =
      (.ok createdTripDoc, [createdTripDoc]) := by
  refine ⟨rfl, rfl, ?_⟩
  decide

/-- C3 (amended): create by a known teacher fails with `InvalidInput` and
inserts nothing when the `expiration_date` does not parse, when the
`start_date` is supplied as a non-empty string that does not parse, or
when both parse but `start_date` is on or after `expiration_date`; a
`start_date` supplied as the empty string bypasses validation.
Disclosed scope hypotheses: the supplied date strings are ASCII, the
scope on which `parseDate` models `strptime` exactly (Python's `\d`
also matches non-ASCII Unicode digits). -/
theorem c3_create_date_validation (teachers : Teachers) (store : Store)
    (a : AnnouncementCreate) (username now_iso new_id : String)
    (hauth : username ∈ teachers)
    (_hea : asciiOnly a.expiration_date = true)
    (_hsa : asciiOnly (a.start_date.getD "") = true) :
    (parseDate a.expiration_date = none →
      create_announcement teachers store a username now_iso new_id =
        (.error (.invalidInput invalidDateFormatDetail), store)) ∧
    (∀ s, a.start_date = some s → ¬ s = "" → parseDate s = none →
      create_announcement teachers store a username now_iso new_id =
        (.error (.invalidInput invalidDateFormatDetail), store)) ∧
    (∀ s sd ed, a.start_date = some s → parseDate s = some sd →
      parseDate a.expiration_date = some ed → ed.key ≤ sd.key →
      create_announcement teachers store a username now_iso new_id =
        (.error (.invalidInput startBeforeExpirationDetail), store)) := by
  refine ⟨?_, ?_, ?_⟩
  · intro hpe
    have hv : validateCreateDates a =
        .error (.invalidInput invalidDateFormatDetail) := by
      unfold validateCreateDates
      rw [hpe]
    simp [create_announcement, hauth, hv]
  · intro s hs hne hps
    have ht : truthyStr a.start_date = true := by
      rw [hs]
      simp [truthyStr, hne]
    have hv : validateCreateDates a =
        .error (.invalidInput invalidDateFormatDetail) := by
      unfold validateCreateDates
      rcases hpe : parseDate a.expiration_date with _ | e
      · rfl
      · simp [hs, hps, truthyStr, hne]
    simp [create_announcement, hauth, hv]
  · intro s sd ed hs hps hpe hle
    have hne : ¬ s = "" := by
      intro h
      rw [h, show parseDate "" = none from rfl] at hps
      exact Option.noConfusion hps
    have ht : truthyStr a.start_date = true := by
      rw [hs]
      simp [truthyStr, hne]
    have hv : validateCreateDates a =
        .error (.invalidInput startBeforeExpirationDetail) := by
      unfold validateCreateDates
      rw [hpe]
      simp [hs, hps, hle, truthyStr, hne]
    simp [create_announcement, hauth, hv]

/-- Witness for C3: creating with `start_date` 2025-01-10 and
`expiration_date` 2025-01-01 is rejected with the ordering message and no
record is inserted. -/
theorem c3_witness :
    "t1" ∈ (["t1"] : Teachers) ∧
    asciiOnly reversedCreate.expiration_date = true ∧
    asciiOnly (reversedCreate.start_date.getD "") = true ∧
    create_announcement ["t1"] [] reversedCreate "t1" "now" "n1" =
      (.error (.invalidInput startBeforeExpirationDetail), []) :=
  ⟨by decide, by decide, by decide,
   (c3_create_date_validation ["t1"] [] reversedCreate "t1" "now" "n1"
      (by decide) (by decide) (by decide)).2.2 "2025-01-10" ⟨2025, 1, 10⟩
     ⟨2025, 1, 1⟩ rfl (by decide) (by decide) (by decide)⟩

/-- C6 counterexample: an update by a known teacher supplying only a title
equal to the stored one makes the `$set` a no-op; the store reports zero
modified documents and the endpoint fails with `InternalError` (500)
instead of succeeding. -/
theorem c6_counterexample :
    datedDoc.get "title" = some (JVal.str "Exam") ∧
    update_announcement ["t1"] [datedDoc] "b1" ⟨some "Exam", none, none, none⟩
        "t1" =
      (.error .internalError, [datedDoc]) := by
  refine ⟨rfl, ?_⟩
  decide

/-- C6 (amended): an update by a known teacher on an existing record that
supplies only a title different from the stored one succeeds without any
date validation (no hypothesis constrains the stored dates), rewrites
exactly that record with only its title changed, and leaves `start_date`,
`expiration_date` and `message` unchanged. -/
theorem c6_title_only_update (teachers : Teachers) (store : Store)
    (id : String) (t : String) (username : String) (doc : Doc)
    (hauth : username ∈ teachers)
    (hfind : findOne store id = some doc)
    (hne : ¬ doc.get "title" = some (JVal.str t)) :
    ∃ pre post, store = pre ++ doc :: post ∧
      update_announcement teachers store id ⟨some t, none, none, none⟩
          username =
        (.ok (some (doc.set "title" (JVal.str t))),
         pre ++ doc.set "title" (JVal.str t) :: post) ∧
      (doc.set "title" (JVal.str t)).get "start_date" =
        doc.get "start_date" ∧
      (doc.set "title" (JVal.str t)).get "expiration_date" =
        doc.get "expiration_date" ∧
      (doc.set "title" (JVal.str t)).get "message" = doc.get "message" := by
  obtain ⟨pre, post, h1, h2, h3, h4⟩ :=
    updateOne_found store id [("title", JVal.str t)] doc hfind
  have happ : applySet [("title", JVal.str t)] doc =
      doc.set "title" (JVal.str t) := rfl
  rw [happ] at h3 h4
  have hne' : ¬ doc.set "title" (JVal.str t) = doc :=
    Doc.set_ne_of_get_ne doc "title" (JVal.str t) hne
  have hcount : (updateOne store id [("title", JVal.str t)]).2 = 1 := by
    rw [h4, if_neg hne']
  have hid : (doc.set "title" (JVal.str t)).get "_id" =
      some (JVal.str id) := by
    rw [Doc.get_set_ne doc "title" "_id" (JVal.str t) (by decide)]
    exact findOne_get_id store id doc hfind
  have hfound : findOne (pre ++ doc.set "title" (JVal.str t) :: post) id =
      some (doc.set "title" (JVal.str t)) :=
    findOne_prepend pre _ post id h2 hid
  have hb : buildUpdateDoc ⟨some t, none, none, none⟩ =
      [("title", JVal.str t)] := rfl
  have hvv : validateUpdateDates ⟨some t, none, none, none⟩ doc =
      .ok () := rfl
  refine ⟨pre, post, h1, ?_,
    Doc.get_set_ne doc "title" "start_date" (JVal.str t) (by decide),
    Doc.get_set_ne doc "title" "expiration_date" (JVal.str t) (by decide),
    Doc.get_set_ne doc "title" "message" (JVal.str t) (by decide)⟩
  simp [update_announcement, hauth, hfind, hvv, hb, hcount, hfound, h3]

/-- Witness for C6 at a concrete store and a fresh title. -/
theorem c6_witness :
    "t1" ∈ (["t1"] : Teachers) ∧
    findOne [datedDoc] "b1" = some datedDoc ∧
    ¬ datedDoc.get "title" = some (JVal.str "Final") ∧
    (∃ pre post, [datedDoc] = pre ++ datedDoc :: post ∧
      update_announcement ["t1"] [datedDoc] "b1"
          ⟨some "Final", none, none, none⟩ "t1" =
        (.ok (some (datedDoc.set "title" (JVal.str "Final"))),
         pre ++ datedDoc.set "title" (JVal.str "Final") :: post) ∧
      (datedDoc.set "title" (JVal.str "Final")).get "start_date" =
        datedDoc.get "start_date" ∧
      (datedDoc.set "title" (JVal.str "Final")).get "expiration_date" =
        datedDoc.get "expiration_date" ∧
      (datedDoc.set "title" (JVal.str "Final")).get "message" =
        datedDoc.get "message") :=
  ⟨by decide, by decide, by decide,
   c6_title_only_update ["t1"] [datedDoc] "b1" "Final" "t1" datedDoc
     (by decide) (by decide) (by decide)⟩

/-- C9: the implicit empty-string hole of update, demonstrated concretely:
supplying `expiration_date` as the empty string triggers no validation
(the truthiness test only fires on non-empty strings) yet the field,
being non-`None`, is written; afterwards the stored record's
`expiration_date` is the empty string, which does not parse. -/
theorem c9_empty_expiration_written_unvalidated :
    validateUpdateDates ⟨none, none, none, some ""⟩ datedDoc = .ok () ∧
    buildUpdateDoc ⟨none, none, none, some ""⟩ =
      [("expiration_date", JVal.str "")] ∧
    update_announcement ["t1"] [datedDoc] "b1" ⟨none, none, none, some ""⟩
        "t1" =
      (.ok (some (datedDoc.set "expiration_date" (JVal.str ""))),
       [datedDoc.set "expiration_date" (JVal.str "")]) ∧
    (datedDoc.set "expiration_date" (JVal.str "")).get "expiration_date" =
      some (JVal.str "") ∧
    parseDate "" = none := by
  refine ⟨rfl, rfl, ?_, rfl, rfl⟩
  decide

/-- C10: every successful create returns (and appends to the store) a
document with exactly the keys title, message, start_date,
expiration_date, created_by, created_at and the store-assigned `_id`, in
that order; `created_by` is the requester and `created_at` the current
UTC timestamp; the `start_date` key is always present, stored as `None`
when the caller omitted it. -/
theorem c10_create_result_shape (teachers : Teachers) (store : Store)
    (a : AnnouncementCreate) (username now_iso new_id : String) (doc : Doc)
    (hok : (create_announcement teachers store a username now_iso new_id).1 =
      .ok doc) :
    doc.map Prod.fst =
      ["title", "message", "start_date", "expiration_date", "created_by",
       "created_at", "_id"] ∧
    doc.get "created_by" = some (JVal.str username) ∧
    doc.get "created_at" = some (JVal.str now_iso) ∧
    doc.get "_id" = some (JVal.str new_id) ∧
    doc.get "start_date" = some (optJVal a.start_date) ∧
    (a.start_date = none → doc.get "start_date" = some JVal.null) ∧
    (create_announcement teachers store a username now_iso new_id).2 =
      store ++ [doc] := by
  by_cases hc : username ∈ teachers
  · cases hv : validateCreateDates a with
    | error e =>
      rw [show (create_announcement teachers store a username now_iso
          new_id).1 = .error e by simp [create_announcement, hc, hv]] at hok
      exact Except.noConfusion hok
    | ok u =>
      cases u
      have hd : doc =
          [("title", JVal.str a.title), ("message", JVal.str a.message),
           ("start_date", optJVal a.start_date),
           ("expiration_date", JVal.str a.expiration_date),
           ("created_by", JVal.str username),
           ("created_at", JVal.str now_iso),
           ("_id", JVal.str new_id)] := by
        rw [show (create_announcement teachers store a username now_iso
            new_id).1 = .ok ([("title", JVal.str a.title),
            ("message", JVal.str a.message),
            ("start_date", optJVal a.start_date),
            ("expiration_date", JVal.str a.expiration_date),
            ("created_by", JVal.str username),
            ("created_at", JVal.str now_iso),
            ("_id", JVal.str new_id)])
          by simp [create_announcement, hc, hv]] at hok
        exact (Except.ok.injEq _ _ ▸ hok).symm
      subst hd
      refine ⟨rfl, rfl, rfl, rfl, rfl, fun h => by rw [h]; rfl, ?_⟩
      simp [create_announcement, hc, hv]
  · rw [show (create_announcement teachers store a username now_iso
        new_id).1 = .error .unauthenticated
      by simp [create_announcement, hc]] at hok
    exact Except.noConfusion hok

/-- Witness for C10 at a concrete successful create. -/
theorem c10_witness :
    (create_announcement ["t1"] [] examCreate "t1"
      "2025-01-01T09:00:00+00:00" "n7").1 = .ok examCreatedDoc ∧
    (examCreatedDoc.map Prod.fst =
      ["title", "message", "start_date", "expiration_date", "created_by",
       "created_at", "_id"] ∧
    examCreatedDoc.get "created_by" = some (JVal.str "t1") ∧
    examCreatedDoc.get "created_at" =
      some (JVal.str "2025-01-01T09:00:00+00:00") ∧
    examCreatedDoc.get "_id" = some (JVal.str "n7") ∧
    examCreatedDoc.get "start_date" =
      some (optJVal examCreate.start_date) ∧
    (examCreate.start_date = none →
      examCreatedDoc.get "start_date" = some JVal.null) ∧
    (create_announcement ["t1"] [] examCreate "t1"
      "2025-01-01T09:00:00+00:00" "n7").2 = [] ++ [examCreatedDoc]) :=
  ⟨by decide,
   c10_create_result_shape ["t1"] [] examCreate "t1"
     "2025-01-01T09:00:00+00:00" "n7" examCreatedDoc (by decide)⟩
